import Mathlib

/-!
Shallow embedding of the `typed` value-interchange library (Rust sources under
`src/`).  Every value type is encoded to / decoded from a self-describing
CBOR-style binary map; the embedding models the wire values as an inductive
`CV`, the derived serde (de)serializers of the proxy `*Cbor` structs, the
`TryFrom` discriminant checks, the builders, and the untagged-union trials.
Numeric `f64` payloads are modelled as rationals (`ℚ`): the codec moves them
around unchanged, so the structural claims are insensitive to the numeric
representation; the one claim about the constant `PI` is stated over an
abstract field.
-/

namespace Typed

/-- A CBOR-style wire value: numbers, integers, strings, null, arrays and
string-keyed maps, as produced by `ciborium` for the serde-derived types. -/
inductive CV where
  | num (q : ℚ)
  | int (n : ℤ)
  | str (s : String)
  | null
  | arr (xs : List CV)
  | map (kvs : List (String × CV))

/-- First binding of a key in a CBOR map, as the derived deserializers see it
(field keys are unique in every map the library itself emits). -/
def lookupKey (kvs : List (String × CV)) (k : String) : Option CV :=
  match kvs with
  | [] => none
  | (k₀, v) :: rest => if k₀ = k then some v else lookupKey rest k

/-- Decode-time failures, separated by the code path that raises them:
`notAMap` and `invalidType` and `missingField` come from the derived
deserializer of the proxy struct (serde-level, the MalformedEncoding kind),
`typeMismatch` is the `Err(String)` of a `TryFrom` discriminant check,
`unknownVariant` is the serde error for an unrecognized enum tag or an
exhausted untagged-union trial. -/
inductive DecodeError where
  | notAMap
  | missingField (field : String)
  | invalidType (field : String)
  | typeMismatch (msg : String)
  | unknownVariant (msg : String)
deriving DecidableEq

/-- Required `String` field of a derived struct deserializer. -/
def reqStr (kvs : List (String × CV)) (k : String) : Except DecodeError String :=
  match lookupKey kvs k with
  | none => .error (.missingField k)
  | some (.str s) => .ok s
  | some _ => .error (.invalidType k)

/-- Required `f64` field of a derived struct deserializer. -/
def reqNum (kvs : List (String × CV)) (k : String) : Except DecodeError ℚ :=
  match lookupKey kvs k with
  | none => .error (.missingField k)
  | some (.num q) => .ok q
  | some _ => .error (.invalidType k)

/-- Required `i64` field of a derived struct deserializer. -/
def reqInt (kvs : List (String × CV)) (k : String) : Except DecodeError ℤ :=
  match lookupKey kvs k with
  | none => .error (.missingField k)
  | some (.int n) => .ok n
  | some _ => .error (.invalidType k)

/-- `Option<i64>` field: absent or null decodes to `none`. -/
def optInt (kvs : List (String × CV)) (k : String) : Except DecodeError (Option ℤ) :=
  match lookupKey kvs k with
  | none => .ok none
  | some .null => .ok none
  | some (.int n) => .ok (some n)
  | some _ => .error (.invalidType k)

/-- Serialization of an `Option<i64>` field value (serde writes `None` as null). -/
def optIntCV : Option ℤ → CV
  | none => .null
  | some n => .int n

/-! ## Angle (src/angle.rs): discriminant key "typed-type", name "angle" -/

/-- `TYPE_NAME` of `angle.rs`. -/
def angleTypeName : String := "angle"

/-- Rust `Angle { radians: f64 }`. -/
structure Angle where
  radians : ℚ
deriving DecidableEq

/-- `Angle::new`. -/
def Angle.new (radians : ℚ) : Angle := ⟨radians⟩

/-- `Angle::rad`. -/
def Angle.rad (a : Angle) : ℚ := a.radians

/-- Serde proxy `AngleCbor { typed_type, radians }`; the field `typed_type`
serializes under the kebab-case key "typed-type". -/
structure AngleCbor where
  typed_type : String
  radians : ℚ

/-- The serialized key of the field `typed_type` of `AngleCbor` (kebab-case). -/
def AngleCbor.discKey : String := "typed-type"

/-- Serialization of `AngleCbor` (fields in declaration order, kebab-cased). -/
def AngleCbor.toCV (c : AngleCbor) : CV :=
  .map [(AngleCbor.discKey, .str c.typed_type), ("radians", .num c.radians)]

/-- Derived deserializer of `AngleCbor`. -/
def AngleCbor.ofCV : CV → Except DecodeError AngleCbor
  | .map kvs =>
    match reqStr kvs AngleCbor.discKey with
    | .error e => .error e
    | .ok tt =>
      match reqNum kvs "radians" with
      | .error e => .error e
      | .ok r => .ok ⟨tt, r⟩
  | _ => .error .notAMap

/-- `From<Angle> for AngleCbor`. -/
def Angle.toCbor (a : Angle) : AngleCbor := ⟨angleTypeName, a.radians⟩

/-- `TryFrom<AngleCbor> for Angle`: the discriminant check. -/
def Angle.tryFromCbor (c : AngleCbor) : Except DecodeError Angle :=
  if c.typed_type ≠ angleTypeName then
    .error (.typeMismatch ("Invalid typed-type for Angle: " ++ c.typed_type))
  else
    .ok (Angle.new c.radians)

/-- Serialization of `Angle` (through the proxy, per the serde attributes). -/
def Angle.encode (a : Angle) : CV := a.toCbor.toCV

/-- Deserialization of `Angle` (proxy deserialize, then `TryFrom`). -/
def Angle.decode (v : CV) : Except DecodeError Angle :=
  match AngleCbor.ofCV v with
  | .error e => .error e
  | .ok c => Angle.tryFromCbor c

/-! ## Ratio (src/ratio.rs): discriminant key "typwire-type", name "ratio" -/

/-- `TYPE_NAME` of `ratio.rs`. -/
def ratioTypeName : String := "ratio"

/-- Rust `Ratio { ratio: f64 }`. -/
structure Ratio where
  ratio : ℚ
deriving DecidableEq

/-- `Ratio::new`. -/
def Ratio.new (ratio : ℚ) : Ratio := ⟨ratio⟩

/-- Serde proxy `RatioCbor { typwire_type, ratio }`. -/
structure RatioCbor where
  typwire_type : String
  ratio : ℚ

/-- The serialized key of the field `typwire_type` of `RatioCbor`. -/
def RatioCbor.discKey : String := "typwire-type"

/-- Serialization of `RatioCbor`. -/
def RatioCbor.toCV (c : RatioCbor) : CV :=
  .map [(RatioCbor.discKey, .str c.typwire_type), ("ratio", .num c.ratio)]

/-- Derived deserializer of `RatioCbor`. -/
def RatioCbor.ofCV : CV → Except DecodeError RatioCbor
  | .map kvs =>
    match reqStr kvs RatioCbor.discKey with
    | .error e => .error e
    | .ok tt =>
      match reqNum kvs "ratio" with
      | .error e => .error e
      | .ok r => .ok ⟨tt, r⟩
  | _ => .error .notAMap

/-- `From<Ratio> for RatioCbor`. -/
def Ratio.toCbor (r : Ratio) : RatioCbor := ⟨ratioTypeName, r.ratio⟩

/-- `TryFrom<RatioCbor> for Ratio`. -/
def Ratio.tryFromCbor (c : RatioCbor) : Except DecodeError Ratio :=
  if c.typwire_type ≠ ratioTypeName then
    .error (.typeMismatch ("Invalid typwire-type for Ratio: " ++ c.typwire_type))
  else
    .ok (Ratio.new c.ratio)

/-- Serialization of `Ratio`. -/
def Ratio.encode (r : Ratio) : CV := r.toCbor.toCV

/-- Deserialization of `Ratio`. -/
def Ratio.decode (v : CV) : Except DecodeError Ratio :=
  match RatioCbor.ofCV v with
  | .error e => .error e
  | .ok c => Ratio.tryFromCbor c

/-! ## Length (src/length.rs): discriminant key "typwire-type", name "length" -/

/-- `TYPE_NAME` of `length.rs`. -/
def lengthTypeName : String := "length"

/-- Rust `Length { points: f64 }`. -/
structure Length where
  points : ℚ
deriving DecidableEq

/-- `Length::new`. -/
def Length.new (points : ℚ) : Length := ⟨points⟩

/-- `Length::pt`. -/
def Length.pt (l : Length) : ℚ := l.points

/-- `Length::mm`: `points * (25.4 / 72.0)`. -/
def Length.mm (l : Length) : ℚ := l.points * (25.4 / 72.0)

/-- `Length::cm`: `points * (25.4 / 720.0)`. -/
def Length.cm (l : Length) : ℚ := l.points * (25.4 / 720.0)

/-- `Length::inches`: `points / 72.0`. -/
def Length.inches (l : Length) : ℚ := l.points / 72

/-- Serde proxy `LengthCbor { typwire_type, points }`. -/
structure LengthCbor where
  typwire_type : String
  points : ℚ

/-- The serialized key of the field `typwire_type` of `LengthCbor`. -/
def LengthCbor.discKey : String := "typwire-type"

/-- Serialization of `LengthCbor`. -/
def LengthCbor.toCV (c : LengthCbor) : CV :=
  .map [(LengthCbor.discKey, .str c.typwire_type), ("points", .num c.points)]

/-- Derived deserializer of `LengthCbor`. -/
def LengthCbor.ofCV : CV → Except DecodeError LengthCbor
  | .map kvs =>
    match reqStr kvs LengthCbor.discKey with
    | .error e => .error e
    | .ok tt =>
      match reqNum kvs "points" with
      | .error e => .error e
      | .ok p => .ok ⟨tt, p⟩
  | _ => .error .notAMap

/-- `From<Length> for LengthCbor`. -/
def Length.toCbor (l : Length) : LengthCbor := ⟨lengthTypeName, l.points⟩

/-- `TryFrom<LengthCbor> for Length`. -/
def Length.tryFromCbor (c : LengthCbor) : Except DecodeError Length :=
  if c.typwire_type ≠ lengthTypeName then
    .error (.typeMismatch ("Invalid typwire-type for Length: " ++ c.typwire_type))
  else
    .ok (Length.new c.points)

/-- Serialization of `Length`. -/
def Length.encode (l : Length) : CV := l.toCbor.toCV

/-- Deserialization of `Length`. -/
def Length.decode (v : CV) : Except DecodeError Length :=
  match LengthCbor.ofCV v with
  | .error e => .error e
  | .ok c => Length.tryFromCbor c

/-! ## Duration (src/duration.rs): discriminant key "typed-type", name "duration" -/

/-- `TYPE_NAME` of `duration.rs`. -/
def durationTypeName : String := "duration"

/-- `SECONDS_IN_MINUTE`. -/
def secondsInMinute : ℚ := 60

/-- `MINUTES_IN_HOUR`. -/
def minutesInHour : ℚ := 60

/-- `HOURS_IN_DAY`. -/
def hoursInDay : ℚ := 24

/-- `DAYS_IN_WEEK`. -/
def daysInWeek : ℚ := 7

/-- Rust `Duration { seconds: f64 }`. -/
structure Duration where
  seconds : ℚ
deriving DecidableEq

/-- `Duration::new`. -/
def Duration.new (seconds : ℚ) : Duration := ⟨seconds⟩

/-- `Duration::seconds`. -/
def Duration.secs (d : Duration) : ℚ := d.seconds

/-- `Duration::minutes`: `seconds() / SECONDS_IN_MINUTE`. -/
def Duration.minutes (d : Duration) : ℚ := d.secs / secondsInMinute

/-- `Duration::hours`: `minutes() / MINUTES_IN_HOUR`. -/
def Duration.hours (d : Duration) : ℚ := d.minutes / minutesInHour

/-- `Duration::days`: `hours() / HOURS_IN_DAY`. -/
def Duration.days (d : Duration) : ℚ := d.hours / hoursInDay

/-- `Duration::weeks`: `days() / DAYS_IN_WEEK`. -/
def Duration.weeks (d : Duration) : ℚ := d.days / daysInWeek

/-- Rust `DurationBuilder`, all components initialized to `0.0` by
`Duration::builder`. -/
structure DurationBuilder where
  seconds : ℚ
  minutes : ℚ
  hours : ℚ
  days : ℚ
  weeks : ℚ

/-- `Duration::builder`. -/
def Duration.builder : DurationBuilder := ⟨0, 0, 0, 0, 0⟩

/-- `DurationBuilder::seconds`. -/
def DurationBuilder.secs (b : DurationBuilder) (seconds : ℚ) : DurationBuilder :=
  { b with seconds := seconds }

/-- `DurationBuilder::minutes`. -/
def DurationBuilder.mins (b : DurationBuilder) (minutes : ℚ) : DurationBuilder :=
  { b with minutes := minutes }

/-- `DurationBuilder::hours`. -/
def DurationBuilder.hrs (b : DurationBuilder) (hours : ℚ) : DurationBuilder :=
  { b with hours := hours }

/-- `DurationBuilder::days`. -/
def DurationBuilder.dys (b : DurationBuilder) (days : ℚ) : DurationBuilder :=
  { b with days := days }

/-- `DurationBuilder::weeks`. -/
def DurationBuilder.wks (b : DurationBuilder) (weeks : ℚ) : DurationBuilder :=
  { b with weeks := weeks }

/-- `DurationBuilder::build`: the sum of the unit components. -/
def DurationBuilder.build (b : DurationBuilder) : Duration :=
  Duration.new
    (b.seconds
      + b.minutes * secondsInMinute
      + b.hours * minutesInHour * secondsInMinute
      + b.days * hoursInDay * minutesInHour * secondsInMinute
      + b.weeks * daysInWeek * hoursInDay * minutesInHour * secondsInMinute)

/-- Serde proxy `DurationCbor { typed_type, seconds }`. -/
structure DurationCbor where
  typed_type : String
  seconds : ℚ

/-- The serialized key of the field `typed_type` of `DurationCbor`. -/
def DurationCbor.discKey : String := "typed-type"

/-- Serialization of `DurationCbor`. -/
def DurationCbor.toCV (c : DurationCbor) : CV :=
  .map [(DurationCbor.discKey, .str c.typed_type), ("seconds", .num c.seconds)]

/-- Derived deserializer of `DurationCbor`. -/
def DurationCbor.ofCV : CV → Except DecodeError DurationCbor
  | .map kvs =>
    match reqStr kvs DurationCbor.discKey with
    | .error e => .error e
    | .ok tt =>
      match reqNum kvs "seconds" with
      | .error e => .error e
      | .ok s => .ok ⟨tt, s⟩
  | _ => .error .notAMap

/-- `From<Duration> for DurationCbor`. -/
def Duration.toCbor (d : Duration) : DurationCbor := ⟨durationTypeName, d.seconds⟩

/-- `TryFrom<DurationCbor> for Duration`. -/
def Duration.tryFromCbor (c : DurationCbor) : Except DecodeError Duration :=
  if c.typed_type ≠ durationTypeName then
    .error (.typeMismatch ("Invalid typed-type for Duration: " ++ c.typed_type))
  else
    .ok (Duration.new c.seconds)

/-- Serialization of `Duration`. -/
def Duration.encode (d : Duration) : CV := d.toCbor.toCV

/-- Deserialization of `Duration`. -/
def Duration.decode (v : CV) : Except DecodeError Duration :=
  match DurationCbor.ofCV v with
  | .error e => .error e
  | .ok c => Duration.tryFromCbor c

/-! ## DateTime (src/datetime.rs): discriminant key "typed-type", name "datetime" -/

/-- `TYPE_NAME` of `datetime.rs`. -/
def datetimeTypeName : String := "datetime"

/-- Rust `DateTime` with six independently optional `i64` fields. -/
structure DateTime where
  year : Option ℤ
  month : Option ℤ
  day : Option ℤ
  hour : Option ℤ
  minute : Option ℤ
  second : Option ℤ
deriving DecidableEq

/-- Rust `DateTimeBuilder`, all fields initialized to `None`. -/
structure DateTimeBuilder where
  year : Option ℤ
  month : Option ℤ
  day : Option ℤ
  hour : Option ℤ
  minute : Option ℤ
  second : Option ℤ

/-- `DateTime::builder`. -/
def DateTime.builder : DateTimeBuilder := ⟨none, none, none, none, none, none⟩

/-- `DateTimeBuilder::build`. -/
def DateTimeBuilder.build (b : DateTimeBuilder) : DateTime :=
  ⟨b.year, b.month, b.day, b.hour, b.minute, b.second⟩

/-- Serde proxy `DateTimeCbor`. -/
structure DateTimeCbor where
  typed_type : String
  year : Option ℤ
  month : Option ℤ
  day : Option ℤ
  hour : Option ℤ
  minute : Option ℤ
  second : Option ℤ

/-- The serialized key of the field `typed_type` of `DateTimeCbor`. -/
def DateTimeCbor.discKey : String := "typed-type"

/-- Serialization of `DateTimeCbor`. -/
def DateTimeCbor.toCV (c : DateTimeCbor) : CV :=
  .map [(DateTimeCbor.discKey, .str c.typed_type), ("year", optIntCV c.year),
    ("month", optIntCV c.month), ("day", optIntCV c.day), ("hour", optIntCV c.hour),
    ("minute", optIntCV c.minute), ("second", optIntCV c.second)]

/-- Derived deserializer of `DateTimeCbor`. -/
def DateTimeCbor.ofCV : CV → Except DecodeError DateTimeCbor
  | .map kvs =>
    match reqStr kvs DateTimeCbor.discKey with
    | .error e => .error e
    | .ok tt =>
      match optInt kvs "year" with
      | .error e => .error e
      | .ok y =>
        match optInt kvs "month" with
        | .error e => .error e
        | .ok mo =>
          match optInt kvs "day" with
          | .error e => .error e
          | .ok d =>
            match optInt kvs "hour" with
            | .error e => .error e
            | .ok h =>
              match optInt kvs "minute" with
              | .error e => .error e
              | .ok mi =>
                match optInt kvs "second" with
                | .error e => .error e
                | .ok s => .ok ⟨tt, y, mo, d, h, mi, s⟩
  | _ => .error .notAMap

/-- `From<DateTime> for DateTimeCbor`. -/
def DateTime.toCbor (d : DateTime) : DateTimeCbor :=
  ⟨datetimeTypeName, d.year, d.month, d.day, d.hour, d.minute, d.second⟩

/-- `TryFrom<DateTimeCbor> for DateTime`. -/
def DateTime.tryFromCbor (c : DateTimeCbor) : Except DecodeError DateTime :=
  if c.typed_type ≠ datetimeTypeName then
    .error (.typeMismatch ("Invalid typed-type for DateTime: " ++ c.typed_type))
  else
    .ok ⟨c.year, c.month, c.day, c.hour, c.minute, c.second⟩

/-- Serialization of `DateTime`. -/
def DateTime.encode (d : DateTime) : CV := d.toCbor.toCV

/-- Deserialization of `DateTime`. -/
def DateTime.decode (v : CV) : Except DecodeError DateTime :=
  match DateTimeCbor.ofCV v with
  | .error e => .error e
  | .ok c => DateTime.tryFromCbor c

/-! ## Version (src/version.rs): discriminant key "typed-type", name "version" -/

/-- `TYPE_NAME` of `version.rs`. -/
def versionTypeName : String := "version"

/-- Rust `Version` with five `i64` components. -/
structure Version where
  major : ℤ
  minor : ℤ
  patch : ℤ
  revision : ℤ
  build : ℤ
deriving DecidableEq

/-- `Version::new`. -/
def Version.new (major minor patch revision build : ℤ) : Version :=
  ⟨major, minor, patch, revision, build⟩

/-- Serde proxy `VersionCbor`. -/
structure VersionCbor where
  typed_type : String
  major : ℤ
  minor : ℤ
  patch : ℤ
  revision : ℤ
  build : ℤ

/-- The serialized key of the field `typed_type` of `VersionCbor`. -/
def VersionCbor.discKey : String := "typed-type"

/-- Serialization of `VersionCbor`. -/
def VersionCbor.toCV (c : VersionCbor) : CV :=
  .map [(VersionCbor.discKey, .str c.typed_type), ("major", .int c.major),
    ("minor", .int c.minor), ("patch", .int c.patch),
    ("revision", .int c.revision), ("build", .int c.build)]

/-- Derived deserializer of `VersionCbor`. -/
def VersionCbor.ofCV : CV → Except DecodeError VersionCbor
  | .map kvs =>
    match reqStr kvs VersionCbor.discKey with
    | .error e => .error e
    | .ok tt =>
      match reqInt kvs "major" with
      | .error e => .error e
      | .ok ma =>
        match reqInt kvs "minor" with
        | .error e => .error e
        | .ok mi =>
          match reqInt kvs "patch" with
          | .error e => .error e
          | .ok p =>
            match reqInt kvs "revision" with
            | .error e => .error e
            | .ok r =>
              match reqInt kvs "build" with
              | .error e => .error e
              | .ok b => .ok ⟨tt, ma, mi, p, r, b⟩
  | _ => .error .notAMap

/-- `From<Version> for VersionCbor`. -/
def Version.toCbor (v : Version) : VersionCbor :=
  ⟨versionTypeName, v.major, v.minor, v.patch, v.revision, v.build⟩

/-- `TryFrom<VersionCbor> for Version`. -/
def Version.tryFromCbor (c : VersionCbor) : Except DecodeError Version :=
  if c.typed_type ≠ versionTypeName then
    .error (.typeMismatch ("Invalid typed-type for Version: " ++ c.typed_type))
  else
    .ok (Version.new c.major c.minor c.patch c.revision c.build)

/-- Serialization of `Version`. -/
def Version.encode (v : Version) : CV := v.toCbor.toCV

/-- Deserialization of `Version`. -/
def Version.decode (v : CV) : Except DecodeError Version :=
  match VersionCbor.ofCV v with
  | .error e => .error e
  | .ok c => Version.tryFromCbor c

/-! ## Type (src/type.rs): discriminant key "typed-type", name "type".
The Rust type is named `Type`; that name is a sort in Lean, so the embedding
calls it `TypeTag`. -/

/-- `TYPE_NAME` of `type.rs`. -/
def typeTypeName : String := "type"

/-- Rust `Type { ty: String }`. -/
structure TypeTag where
  ty : String
deriving DecidableEq

/-- `Type::new`. -/
def TypeTag.new (ty : String) : TypeTag := ⟨ty⟩

/-- Serde proxy `TypeCbor { typed_type, ty }`. -/
structure TypeCbor where
  typed_type : String
  ty : String

/-- The serialized key of the field `typed_type` of `TypeCbor`. -/
def TypeCbor.discKey : String := "typed-type"

/-- Serialization of `TypeCbor`. -/
def TypeCbor.toCV (c : TypeCbor) : CV :=
  .map [(TypeCbor.discKey, .str c.typed_type), ("ty", .str c.ty)]

/-- Derived deserializer of `TypeCbor`. -/
def TypeCbor.ofCV : CV → Except DecodeError TypeCbor
  | .map kvs =>
    match reqStr kvs TypeCbor.discKey with
    | .error e => .error e
    | .ok tt =>
      match reqStr kvs "ty" with
      | .error e => .error e
      | .ok t => .ok ⟨tt, t⟩
  | _ => .error .notAMap

/-- `From<Type> for TypeCbor`. -/
def TypeTag.toCbor (t : TypeTag) : TypeCbor := ⟨typeTypeName, t.ty⟩

/-- `TryFrom<TypeCbor> for Type`. -/
def TypeTag.tryFromCbor (c : TypeCbor) : Except DecodeError TypeTag :=
  if c.typed_type ≠ typeTypeName then
    .error (.typeMismatch ("Invalid typed-type for Type: " ++ c.typed_type))
  else
    .ok (TypeTag.new c.ty)

/-- Serialization of `Type`. -/
def TypeTag.encode (t : TypeTag) : CV := t.toCbor.toCV

/-- Deserialization of `Type`. -/
def TypeTag.decode (v : CV) : Except DecodeError TypeTag :=
  match TypeCbor.ofCV v with
  | .error e => .error e
  | .ok c => TypeTag.tryFromCbor c

/-! ## Radius (src/radius.rs): untagged record with optional corner and
shorthand keys -/

/-- Rust `Radius` with four optional corner lengths. -/
structure Radius where
  top_left : Option Length
  top_right : Option Length
  bottom_left : Option Length
  bottom_right : Option Length
deriving DecidableEq

/-- `Radius::new`. -/
def Radius.new (top_left top_right bottom_left bottom_right : Option Length) : Radius :=
  ⟨top_left, top_right, bottom_left, bottom_right⟩

/-- Rust `RadiusBuilder` with four corner and five shorthand fields. -/
structure RadiusBuilder where
  top_left : Option Length
  top_right : Option Length
  bottom_left : Option Length
  bottom_right : Option Length
  top : Option Length
  bottom : Option Length
  left : Option Length
  right : Option Length
  rest : Option Length

/-- `Radius::builder`: every field starts as `None`. -/
def Radius.builder : RadiusBuilder :=
  ⟨none, none, none, none, none, none, none, none, none⟩

/-- `RadiusBuilder::top_left`. -/
def RadiusBuilder.topLeft (b : RadiusBuilder) (value : Length) : RadiusBuilder :=
  { b with top_left := some value }

/-- `RadiusBuilder::top_right`. -/
def RadiusBuilder.topRight (b : RadiusBuilder) (value : Length) : RadiusBuilder :=
  { b with top_right := some value }

/-- `RadiusBuilder::bottom_left`. -/
def RadiusBuilder.bottomLeft (b : RadiusBuilder) (value : Length) : RadiusBuilder :=
  { b with bottom_left := some value }

/-- `RadiusBuilder::bottom_right`. -/
def RadiusBuilder.bottomRight (b : RadiusBuilder) (value : Length) : RadiusBuilder :=
  { b with bottom_right := some value }

/-- `RadiusBuilder::top`. -/
def RadiusBuilder.setTop (b : RadiusBuilder) (value : Length) : RadiusBuilder :=
  { b with top := some value }

/-- `RadiusBuilder::bottom`. -/
def RadiusBuilder.setBottom (b : RadiusBuilder) (value : Length) : RadiusBuilder :=
  { b with bottom := some value }

/-- `RadiusBuilder::left`. -/
def RadiusBuilder.setLeft (b : RadiusBuilder) (value : Length) : RadiusBuilder :=
  { b with left := some value }

/-- `RadiusBuilder::right`. -/
def RadiusBuilder.setRight (b : RadiusBuilder) (value : Length) : RadiusBuilder :=
  { b with right := some value }

/-- `RadiusBuilder::rest`. -/
def RadiusBuilder.setRest (b : RadiusBuilder) (value : Length) : RadiusBuilder :=
  { b with rest := some value }

/-- `RadiusBuilder::build`: per-corner shorthand resolution, first present
value wins, in the exact `or` chains of the source. -/
def RadiusBuilder.build (b : RadiusBuilder) : Radius :=
  Radius.new
    (b.top_left.or (b.left.or (b.top.or b.rest)))
    (b.top_right.or (b.top.or (b.right.or b.rest)))
    (b.bottom_left.or (b.left.or (b.bottom.or b.rest)))
    (b.bottom_right.or (b.right.or (b.bottom.or b.rest)))

/-- The nine keys the `RadiusCbor` deserializer recognizes (kebab-cased
field names); every other key of a decoded map is ignored. -/
def radiusRecognizedKeys : List String :=
  ["top-left", "top-right", "bottom-left", "bottom-right",
    "left", "top", "right", "bottom", "rest"]

/-- Serde proxy `RadiusCbor`: nine optional `Length` fields, declaration
order `top_left, top_right, bottom_left, bottom_right, left, top, right,
bottom, rest`. -/
structure RadiusCbor where
  top_left : Option Length
  top_right : Option Length
  bottom_left : Option Length
  bottom_right : Option Length
  left : Option Length
  top : Option Length
  right : Option Length
  bottom : Option Length
  rest : Option Length

/-- Serialization of an `Option<Length>` field value. -/
def optLengthCV : Option Length → CV
  | none => .null
  | some l => Length.encode l

/-- `Option<Length>` field of a derived deserializer: absent or null is
`none`; a present value is deserialized as a `Length` and its failures
propagate. -/
def optLength (kvs : List (String × CV)) (k : String) : Except DecodeError (Option Length) :=
  match lookupKey kvs k with
  | none => .ok none
  | some .null => .ok none
  | some v =>
    match Length.decode v with
    | .error e => .error e
    | .ok l => .ok (some l)

/-- The entry list serialized for a `RadiusCbor` (all nine keys are written;
`None` fields serialize as null). -/
def RadiusCbor.entries (c : RadiusCbor) : List (String × CV) :=
  [("top-left", optLengthCV c.top_left), ("top-right", optLengthCV c.top_right),
    ("bottom-left", optLengthCV c.bottom_left), ("bottom-right", optLengthCV c.bottom_right),
    ("left", optLengthCV c.left), ("top", optLengthCV c.top),
    ("right", optLengthCV c.right), ("bottom", optLengthCV c.bottom),
    ("rest", optLengthCV c.rest)]

/-- Serialization of `RadiusCbor`. -/
def RadiusCbor.toCV (c : RadiusCbor) : CV := .map c.entries

/-- Derived deserializer of `RadiusCbor`. -/
def RadiusCbor.ofCV : CV → Except DecodeError RadiusCbor
  | .map kvs =>
    match optLength kvs "top-left" with
    | .error e => .error e
    | .ok tl =>
      match optLength kvs "top-right" with
      | .error e => .error e
      | .ok tr =>
        match optLength kvs "bottom-left" with
        | .error e => .error e
        | .ok bl =>
          match optLength kvs "bottom-right" with
          | .error e => .error e
          | .ok br =>
            match optLength kvs "left" with
            | .error e => .error e
            | .ok l =>
              match optLength kvs "top" with
              | .error e => .error e
              | .ok t =>
                match optLength kvs "right" with
                | .error e => .error e
                | .ok r =>
                  match optLength kvs "bottom" with
                  | .error e => .error e
                  | .ok bo =>
                    match optLength kvs "rest" with
                    | .error e => .error e
                    | .ok re => .ok ⟨tl, tr, bl, br, l, t, r, bo, re⟩
  | _ => .error .notAMap

/-- `From<Radius> for RadiusCbor`: corners are copied, every shorthand field
is set to `None`. -/
def Radius.toCbor (r : Radius) : RadiusCbor :=
  ⟨r.top_left, r.top_right, r.bottom_left, r.bottom_right, none, none, none, none, none⟩

/-- `From<RadiusCbor> for Radius`: the wire-side shorthand resolution, the
same `or` chains as `RadiusBuilder::build`. -/
def Radius.fromCbor (c : RadiusCbor) : Radius :=
  Radius.new
    (c.top_left.or (c.left.or (c.top.or c.rest)))
    (c.top_right.or (c.top.or (c.right.or c.rest)))
    (c.bottom_left.or (c.left.or (c.bottom.or c.rest)))
    (c.bottom_right.or (c.right.or (c.bottom.or c.rest)))

/-- The entry list of an encoded `Radius`. -/
def Radius.encodeEntries (r : Radius) : List (String × CV) := r.toCbor.entries

/-- Serialization of `Radius` (through the proxy; `From<RadiusCbor>` is
infallible, so decoding cannot fail at the discriminant stage — there is
none). -/
def Radius.encode (r : Radius) : CV := r.toCbor.toCV

/-- Deserialization of `Radius`. -/
def Radius.decode (v : CV) : Except DecodeError Radius :=
  match RadiusCbor.ofCV v with
  | .error e => .error e
  | .ok c => .ok (Radius.fromCbor c)

/-! ## Center (src/center.rs): plain struct of two `Ratio` fields -/

/-- Rust `Center { x: Ratio, y: Ratio }`. -/
structure Center where
  x : Ratio
  y : Ratio
deriving DecidableEq

/-- `Center::new`. -/
def Center.new (x y : Ratio) : Center := ⟨x, y⟩

/-- Serialization of `Center` (each `Ratio` through its tagged proxy). -/
def Center.encode (c : Center) : CV :=
  .map [("x", Ratio.encode c.x), ("y", Ratio.encode c.y)]

/-- Required `Ratio` field of a derived deserializer. -/
def reqRatio (kvs : List (String × CV)) (k : String) : Except DecodeError Ratio :=
  match lookupKey kvs k with
  | none => .error (.missingField k)
  | some v => Ratio.decode v

/-- Required `Angle` field of a derived deserializer. -/
def reqAngle (kvs : List (String × CV)) (k : String) : Except DecodeError Angle :=
  match lookupKey kvs k with
  | none => .error (.missingField k)
  | some v => Angle.decode v

/-- Deserialization of `Center`. -/
def Center.decode (v : CV) : Except DecodeError Center :=
  match v with
  | .map kvs =>
    match reqRatio kvs "x" with
    | .error e => .error e
    | .ok x =>
      match reqRatio kvs "y" with
      | .error e => .error e
      | .ok y => .ok (Center.new x y)
  | _ => .error .notAMap

/-! ## Color (src/color.rs): internally tagged enum, tag key "typwire-type",
eight variants with explicit kebab-case renames -/

/-- Rust `Luma { lightness, alpha }`. -/
structure Luma where
  lightness : Ratio
  alpha : Ratio
deriving DecidableEq

/-- `Luma::new`. -/
def Luma.new (lightness alpha : Ratio) : Luma := ⟨lightness, alpha⟩

/-- Rust `Oklab { lightness, a, b, alpha }`. -/
structure Oklab where
  lightness : Ratio
  a : Ratio
  b : Ratio
  alpha : Ratio
deriving DecidableEq

/-- `Oklab::new`. -/
def Oklab.new (lightness a b alpha : Ratio) : Oklab := ⟨lightness, a, b, alpha⟩

/-- Rust `Oklch { lightness, chroma, hue, alpha }`. -/
structure Oklch where
  lightness : Ratio
  chroma : Ratio
  hue : Angle
  alpha : Ratio
deriving DecidableEq

/-- `Oklch::new`. -/
def Oklch.new (lightness chroma : Ratio) (hue : Angle) (alpha : Ratio) : Oklch :=
  ⟨lightness, chroma, hue, alpha⟩

/-- Rust `LinearRgb { r, g, b, alpha }`. -/
structure LinearRgb where
  r : Ratio
  g : Ratio
  b : Ratio
  alpha : Ratio
deriving DecidableEq

/-- `LinearRgb::new`. -/
def LinearRgb.new (r g b alpha : Ratio) : LinearRgb := ⟨r, g, b, alpha⟩

/-- Rust `Rgb { r, g, b, alpha }`. -/
structure Rgb where
  r : Ratio
  g : Ratio
  b : Ratio
  alpha : Ratio
deriving DecidableEq

/-- `Rgb::new`. -/
def Rgb.new (r g b alpha : Ratio) : Rgb := ⟨r, g, b, alpha⟩

/-- Rust `Cmyk { cyan, magenta, yellow, key }`. -/
structure Cmyk where
  cyan : Ratio
  magenta : Ratio
  yellow : Ratio
  key : Ratio
deriving DecidableEq

/-- `Cmyk::new`. -/
def Cmyk.new (cyan magenta yellow key : Ratio) : Cmyk := ⟨cyan, magenta, yellow, key⟩

/-- Rust `Hsl { hue, saturation, lightness, alpha }`. -/
structure Hsl where
  hue : Angle
  saturation : Ratio
  lightness : Ratio
  alpha : Ratio
deriving DecidableEq

/-- `Hsl::new`. -/
def Hsl.new (hue : Angle) (saturation lightness alpha : Ratio) : Hsl :=
  ⟨hue, saturation, lightness, alpha⟩

/-- Rust `Hsv { hue, saturation, value, alpha }`. -/
structure Hsv where
  hue : Angle
  saturation : Ratio
  value : Ratio
  alpha : Ratio
deriving DecidableEq

/-- `Hsv::new`. -/
def Hsv.new (hue : Angle) (saturation value alpha : Ratio) : Hsv :=
  ⟨hue, saturation, value, alpha⟩

/-- Rust `Color`, a sum over the eight color spaces. -/
inductive Color where
  | Luma (c : Luma)
  | Oklab (c : Oklab)
  | Oklch (c : Oklch)
  | LinearRgb (c : LinearRgb)
  | Rgb (c : Rgb)
  | Cmyk (c : Cmyk)
  | Hsl (c : Hsl)
  | Hsv (c : Hsv)
deriving DecidableEq

/-- The serde tag key of `Color`: `#[serde(tag = "typwire-type")]`. -/
def Color.tagKey : String := "typwire-type"

/-- The serde rename of each `Color` variant, the value stored under the tag
key when serializing. -/
def Color.variantTag : Color → String
  | .Luma _ => "color-luma"
  | .Oklab _ => "color-oklab"
  | .Oklch _ => "color-oklch"
  | .LinearRgb _ => "color-linear-rgb"
  | .Rgb _ => "color-rgb"
  | .Cmyk _ => "color-cmyk"
  | .Hsl _ => "color-hsl"
  | .Hsv _ => "color-hsv"

/-- The set of variant tags the `Color` deserializer recognizes. -/
def Color.recognizedTags : List String :=
  ["color-luma", "color-oklab", "color-oklch", "color-linear-rgb",
    "color-rgb", "color-cmyk", "color-hsl", "color-hsv"]

/-- Serialization of `Color`: an internally tagged map, the tag entry first,
then the fields of the active variant. -/
def Color.encode : Color → CV
  | .Luma c => .map [(Color.tagKey, .str "color-luma"),
      ("lightness", Ratio.encode c.lightness), ("alpha", Ratio.encode c.alpha)]
  | .Oklab c => .map [(Color.tagKey, .str "color-oklab"),
      ("lightness", Ratio.encode c.lightness), ("a", Ratio.encode c.a),
      ("b", Ratio.encode c.b), ("alpha", Ratio.encode c.alpha)]
  | .Oklch c => .map [(Color.tagKey, .str "color-oklch"),
      ("lightness", Ratio.encode c.lightness), ("chroma", Ratio.encode c.chroma),
      ("hue", Angle.encode c.hue), ("alpha", Ratio.encode c.alpha)]
  | .LinearRgb c => .map [(Color.tagKey, .str "color-linear-rgb"),
      ("r", Ratio.encode c.r), ("g", Ratio.encode c.g),
      ("b", Ratio.encode c.b), ("alpha", Ratio.encode c.alpha)]
  | .Rgb c => .map [(Color.tagKey, .str "color-rgb"),
      ("r", Ratio.encode c.r), ("g", Ratio.encode c.g),
      ("b", Ratio.encode c.b), ("alpha", Ratio.encode c.alpha)]
  | .Cmyk c => .map [(Color.tagKey, .str "color-cmyk"),
      ("cyan", Ratio.encode c.cyan), ("magenta", Ratio.encode c.magenta),
      ("yellow", Ratio.encode c.yellow), ("key", Ratio.encode c.key)]
  | .Hsl c => .map [(Color.tagKey, .str "color-hsl"),
      ("hue", Angle.encode c.hue), ("saturation", Ratio.encode c.saturation),
      ("lightness", Ratio.encode c.lightness), ("alpha", Ratio.encode c.alpha)]
  | .Hsv c => .map [(Color.tagKey, .str "color-hsv"),
      ("hue", Angle.encode c.hue), ("saturation", Ratio.encode c.saturation),
      ("value", Ratio.encode c.value), ("alpha", Ratio.encode c.alpha)]

/-- Variant body deserializer for `Luma`. -/
def Luma.ofFields (kvs : List (String × CV)) : Except DecodeError Luma :=
  match reqRatio kvs "lightness" with
  | .error e => .error e
  | .ok l =>
    match reqRatio kvs "alpha" with
    | .error e => .error e
    | .ok a => .ok (Luma.new l a)

/-- Variant body deserializer for `Oklab`. -/
def Oklab.ofFields (kvs : List (String × CV)) : Except DecodeError Oklab :=
  match reqRatio kvs "lightness" with
  | .error e => .error e
  | .ok l =>
    match reqRatio kvs "a" with
    | .error e => .error e
    | .ok a =>
      match reqRatio kvs "b" with
      | .error e => .error e
      | .ok b =>
        match reqRatio kvs "alpha" with
        | .error e => .error e
        | .ok al => .ok (Oklab.new l a b al)

/-- Variant body deserializer for `Oklch`. -/
def Oklch.ofFields (kvs : List (String × CV)) : Except DecodeError Oklch :=
  match reqRatio kvs "lightness" with
  | .error e => .error e
  | .ok l =>
    match reqRatio kvs "chroma" with
    | .error e => .error e
    | .ok ch =>
      match reqAngle kvs "hue" with
      | .error e => .error e
      | .ok h =>
        match reqRatio kvs "alpha" with
        | .error e => .error e
        | .ok al => .ok (Oklch.new l ch h al)

/-- Variant body deserializer for `LinearRgb`. -/
def LinearRgb.ofFields (kvs : List (String × CV)) : Except DecodeError LinearRgb :=
  match reqRatio kvs "r" with
  | .error e => .error e
  | .ok r =>
    match reqRatio kvs "g" with
    | .error e => .error e
    | .ok g =>
      match reqRatio kvs "b" with
      | .error e => .error e
      | .ok b =>
        match reqRatio kvs "alpha" with
        | .error e => .error e
        | .ok al => .ok (LinearRgb.new r g b al)

/-- Variant body deserializer for `Rgb`. -/
def Rgb.ofFields (kvs : List (String × CV)) : Except DecodeError Rgb :=
  match reqRatio kvs "r" with
  | .error e => .error e
  | .ok r =>
    match reqRatio kvs "g" with
    | .error e => .error e
    | .ok g =>
      match reqRatio kvs "b" with
      | .error e => .error e
      | .ok b =>
        match reqRatio kvs "alpha" with
        | .error e => .error e
        | .ok al => .ok (Rgb.new r g b al)

/-- Variant body deserializer for `Cmyk`. -/
def Cmyk.ofFields (kvs : List (String × CV)) : Except DecodeError Cmyk :=
  match reqRatio kvs "cyan" with
  | .error e => .error e
  | .ok c =>
    match reqRatio kvs "magenta" with
    | .error e => .error e
    | .ok m =>
      match reqRatio kvs "yellow" with
      | .error e => .error e
      | .ok y =>
        match reqRatio kvs "key" with
        | .error e => .error e
        | .ok k => .ok (Cmyk.new c m y k)

/-- Variant body deserializer for `Hsl`. -/
def Hsl.ofFields (kvs : List (String × CV)) : Except DecodeError Hsl :=
  match reqAngle kvs "hue" with
  | .error e => .error e
  | .ok h =>
    match reqRatio kvs "saturation" with
    | .error e => .error e
    | .ok s =>
      match reqRatio kvs "lightness" with
      | .error e => .error e
      | .ok l =>
        match reqRatio kvs "alpha" with
        | .error e => .error e
        | .ok al => .ok (Hsl.new h s l al)

/-- Variant body deserializer for `Hsv`. -/
def Hsv.ofFields (kvs : List (String × CV)) : Except DecodeError Hsv :=
  match reqAngle kvs "hue" with
  | .error e => .error e
  | .ok h =>
    match reqRatio kvs "saturation" with
    | .error e => .error e
    | .ok s =>
      match reqRatio kvs "value" with
      | .error e => .error e
      | .ok v =>
        match reqRatio kvs "alpha" with
        | .error e => .error e
        | .ok al => .ok (Hsv.new h s v al)

/-- Deserialization of `Color`: read the tag under "typwire-type", then
deserialize the matching variant body from the same map; an unrecognized tag
fails with the serde unknown-variant error. -/
def Color.decode : CV → Except DecodeError Color
  | .map kvs =>
    match lookupKey kvs Color.tagKey with
    | none => .error (.missingField Color.tagKey)
    | some (.str t) =>
      if t = "color-luma" then
        match Luma.ofFields kvs with
        | .error e => .error e
        | .ok c => .ok (.Luma c)
      else if t = "color-oklab" then
        match Oklab.ofFields kvs with
        | .error e => .error e
        | .ok c => .ok (.Oklab c)
      else if t = "color-oklch" then
        match Oklch.ofFields kvs with
        | .error e => .error e
        | .ok c => .ok (.Oklch c)
      else if t = "color-linear-rgb" then
        match LinearRgb.ofFields kvs with
        | .error e => .error e
        | .ok c => .ok (.LinearRgb c)
      else if t = "color-rgb" then
        match Rgb.ofFields kvs with
        | .error e => .error e
        | .ok c => .ok (.Rgb c)
      else if t = "color-cmyk" then
        match Cmyk.ofFields kvs with
        | .error e => .error e
        | .ok c => .ok (.Cmyk c)
      else if t = "color-hsl" then
        match Hsl.ofFields kvs with
        | .error e => .error e
        | .ok c => .ok (.Hsl c)
      else if t = "color-hsv" then
        match Hsv.ofFields kvs with
        | .error e => .error e
        | .ok c => .ok (.Hsv c)
      else .error (.unknownVariant t)
    | some _ => .error (.invalidType Color.tagKey)
  | _ => .error .notAMap

/-- Named constant `BLACK` of `color.rs`. -/
def BLACK : Color := .Luma (Luma.new (Ratio.new 0) (Ratio.new 1))

/-- Named constant `WHITE` of `color.rs`. -/
def WHITE : Color := .Luma (Luma.new (Ratio.new 1) (Ratio.new 1))

/-! ## Stop (src/stop.rs) -/

/-- Rust `Stop { color: Color, offset: Ratio }`. -/
structure Stop where
  color : Color
  offset : Ratio
deriving DecidableEq

/-- `Stop::new`. -/
def Stop.new (color : Color) (offset : Ratio) : Stop := ⟨color, offset⟩

/-- Serialization of `Stop`. -/
def Stop.encode (s : Stop) : CV :=
  .map [("color", Color.encode s.color), ("offset", Ratio.encode s.offset)]

/-- Deserialization of `Stop`. -/
def Stop.decode (v : CV) : Except DecodeError Stop :=
  match v with
  | .map kvs =>
    match lookupKey kvs "color" with
    | none => .error (.missingField "color")
    | some cv =>
      match Color.decode cv with
      | .error e => .error e
      | .ok c =>
        match reqRatio kvs "offset" with
        | .error e => .error e
        | .ok o => .ok (Stop.new c o)
  | _ => .error .notAMap

/-! ## ColorSpace and Gradient (src/gradient.rs): internally tagged enum,
tag key "typed-type", kebab-case variant and field names -/

/-- Rust `ColorSpace`, the eight-way selector. -/
inductive ColorSpace where
  | Luma
  | Oklab
  | Oklch
  | LinearRgb
  | Rgb
  | Cmyk
  | Hsl
  | Hsv
deriving DecidableEq

/-- The `#[default]` variant of `ColorSpace` is `Oklab`. -/
def ColorSpace.default : ColorSpace := .Oklab

/-- Serialization of `ColorSpace`: the kebab-cased variant name. -/
def ColorSpace.encode : ColorSpace → CV
  | .Luma => .str "luma"
  | .Oklab => .str "oklab"
  | .Oklch => .str "oklch"
  | .LinearRgb => .str "linear-rgb"
  | .Rgb => .str "rgb"
  | .Cmyk => .str "cmyk"
  | .Hsl => .str "hsl"
  | .Hsv => .str "hsv"

/-- Deserialization of `ColorSpace`. -/
def ColorSpace.decode : CV → Except DecodeError ColorSpace
  | .str t =>
    if t = "luma" then .ok .Luma
    else if t = "oklab" then .ok .Oklab
    else if t = "oklch" then .ok .Oklch
    else if t = "linear-rgb" then .ok .LinearRgb
    else if t = "rgb" then .ok .Rgb
    else if t = "cmyk" then .ok .Cmyk
    else if t = "hsl" then .ok .Hsl
    else if t = "hsv" then .ok .Hsv
    else .error (.unknownVariant t)
  | _ => .error (.invalidType "space")

/-- Rust `Gradient`, the three-variant sum. -/
inductive Gradient where
  | Linear (stops : List Stop) (angle : Angle) (space : ColorSpace)
  | Radial (stops : List Stop) (center : Center) (radius : Ratio)
      (focal_center : Center) (focal_radius : Ratio) (space : ColorSpace)
  | Conic (stops : List Stop) (angle : Angle) (center : Center) (space : ColorSpace)

/-- The stops sequence carried by a `Gradient` value. -/
def Gradient.stops : Gradient → List Stop
  | .Linear stops _ _ => stops
  | .Radial stops _ _ _ _ _ => stops
  | .Conic stops _ _ _ => stops

/-- The serde tag key of `Gradient`: `#[serde(tag = "typed-type")]`. -/
def Gradient.tagKey : String := "typed-type"

/-- The serde tag value of each `Gradient` variant (kebab-cased name). -/
def Gradient.variantTag : Gradient → String
  | .Linear _ _ _ => "linear"
  | .Radial _ _ _ _ _ _ => "radial"
  | .Conic _ _ _ _ => "conic"

/-- The set of variant tags the `Gradient` deserializer recognizes. -/
def Gradient.recognizedTags : List String := ["linear", "radial", "conic"]

/-- `Gradient::linear`. -/
def Gradient.linear (stops : List Stop) (angle : Angle) (space : ColorSpace) : Gradient :=
  .Linear stops angle space

/-- `Gradient::radial`. -/
def Gradient.radial (stops : List Stop) (center : Center) (radius : Ratio)
    (focal_center : Center) (focal_radius : Ratio) (space : ColorSpace) : Gradient :=
  .Radial stops center radius focal_center focal_radius space

/-- `Gradient::conic`. -/
def Gradient.conic (stops : List Stop) (angle : Angle) (center : Center)
    (space : ColorSpace) : Gradient :=
  .Conic stops angle center space

/-- Serialization of a stop list (a CBOR array of stop maps). -/
def encodeStops (stops : List Stop) : CV := .arr (stops.map Stop.encode)

/-- Element-wise deserialization of a stop array. -/
def decodeStopList : List CV → Except DecodeError (List Stop)
  | [] => .ok []
  | v :: rest =>
    match Stop.decode v with
    | .error e => .error e
    | .ok s =>
      match decodeStopList rest with
      | .error e => .error e
      | .ok ss => .ok (s :: ss)

/-- Required `Vec<Stop>` field of the gradient variant deserializers. -/
def reqStops (kvs : List (String × CV)) (k : String) : Except DecodeError (List Stop) :=
  match lookupKey kvs k with
  | none => .error (.missingField k)
  | some (.arr xs) => decodeStopList xs
  | some _ => .error (.invalidType k)

/-- Required `Center` field. -/
def reqCenter (kvs : List (String × CV)) (k : String) : Except DecodeError Center :=
  match lookupKey kvs k with
  | none => .error (.missingField k)
  | some v => Center.decode v

/-- Required `ColorSpace` field. -/
def reqSpace (kvs : List (String × CV)) (k : String) : Except DecodeError ColorSpace :=
  match lookupKey kvs k with
  | none => .error (.missingField k)
  | some v => ColorSpace.decode v

/-- Serialization of `Gradient`: internally tagged map, tag first, fields of
the variant in declaration order under kebab-case keys. -/
def Gradient.encode : Gradient → CV
  | .Linear stops angle space =>
    .map [(Gradient.tagKey, .str "linear"), ("stops", encodeStops stops),
      ("angle", Angle.encode angle), ("space", ColorSpace.encode space)]
  | .Radial stops center radius fc fr space =>
    .map [(Gradient.tagKey, .str "radial"), ("stops", encodeStops stops),
      ("center", Center.encode center), ("radius", Ratio.encode radius),
      ("focal-center", Center.encode fc), ("focal-radius", Ratio.encode fr),
      ("space", ColorSpace.encode space)]
  | .Conic stops angle center space =>
    .map [(Gradient.tagKey, .str "conic"), ("stops", encodeStops stops),
      ("angle", Angle.encode angle), ("center", Center.encode center),
      ("space", ColorSpace.encode space)]

/-- Variant body deserializer for `Gradient::Linear`. -/
def Gradient.decodeLinear (kvs : List (String × CV)) : Except DecodeError Gradient :=
  match reqStops kvs "stops" with
  | .error e => .error e
  | .ok stops =>
    match reqAngle kvs "angle" with
    | .error e => .error e
    | .ok angle =>
      match reqSpace kvs "space" with
      | .error e => .error e
      | .ok space => .ok (.Linear stops angle space)

/-- Variant body deserializer for `Gradient::Radial`. -/
def Gradient.decodeRadial (kvs : List (String × CV)) : Except DecodeError Gradient :=
  match reqStops kvs "stops" with
  | .error e => .error e
  | .ok stops =>
    match reqCenter kvs "center" with
    | .error e => .error e
    | .ok center =>
      match reqRatio kvs "radius" with
      | .error e => .error e
      | .ok radius =>
        match reqCenter kvs "focal-center" with
        | .error e => .error e
        | .ok fc =>
          match reqRatio kvs "focal-radius" with
          | .error e => .error e
          | .ok fr =>
            match reqSpace kvs "space" with
            | .error e => .error e
            | .ok space => .ok (.Radial stops center radius fc fr space)

/-- Variant body deserializer for `Gradient::Conic`. -/
def Gradient.decodeConic (kvs : List (String × CV)) : Except DecodeError Gradient :=
  match reqStops kvs "stops" with
  | .error e => .error e
  | .ok stops =>
    match reqAngle kvs "angle" with
    | .error e => .error e
    | .ok angle =>
      match reqCenter kvs "center" with
      | .error e => .error e
      | .ok center =>
        match reqSpace kvs "space" with
        | .error e => .error e
        | .ok space => .ok (.Conic stops angle center space)

/-- Deserialization of `Gradient`. -/
def Gradient.decode : CV → Except DecodeError Gradient
  | .map kvs =>
    match lookupKey kvs Gradient.tagKey with
    | none => .error (.missingField Gradient.tagKey)
    | some (.str t) =>
      if t = "linear" then Gradient.decodeLinear kvs
      else if t = "radial" then Gradient.decodeRadial kvs
      else if t = "conic" then Gradient.decodeConic kvs
      else .error (.unknownVariant t)
    | some _ => .error (.invalidType Gradient.tagKey)
  | _ => .error .notAMap

/-! ## Gradient builders (src/gradient.rs) -/

/-- The gradient builder error enum of `gradient.rs`. -/
inductive GradientBuilderError where
  | MissingField (field : String)
deriving DecidableEq

/-- Rust `LinearGradientBuilder`. -/
structure LinearGradientBuilder where
  stops : List Stop
  angle : Option Angle
  space : ColorSpace

/-- `Gradient::linear_builder`: empty stops, no angle, default color space. -/
def Gradient.linearBuilder : LinearGradientBuilder :=
  ⟨[], none, ColorSpace.default⟩

/-- `LinearGradientBuilder::stops`. -/
def LinearGradientBuilder.setStops (b : LinearGradientBuilder) (stops : List Stop) :
    LinearGradientBuilder :=
  { b with stops := stops }

/-- `LinearGradientBuilder::stop` (push one). -/
def LinearGradientBuilder.pushStop (b : LinearGradientBuilder) (stop : Stop) :
    LinearGradientBuilder :=
  { b with stops := b.stops ++ [stop] }

/-- `LinearGradientBuilder::angle`. -/
def LinearGradientBuilder.setAngle (b : LinearGradientBuilder) (angle : Angle) :
    LinearGradientBuilder :=
  { b with angle := some angle }

/-- `LinearGradientBuilder::space`. -/
def LinearGradientBuilder.setSpace (b : LinearGradientBuilder) (space : ColorSpace) :
    LinearGradientBuilder :=
  { b with space := space }

/-- `LinearGradientBuilder::build`: stop count first, then the angle. -/
def LinearGradientBuilder.build (b : LinearGradientBuilder) :
    Except GradientBuilderError Gradient :=
  if b.stops.length ≥ 2 then
    match b.angle with
    | none => .error (.MissingField "angle")
    | some angle => .ok (Gradient.linear b.stops angle b.space)
  else .error (.MissingField "stops")

/-- Rust `RadialGradientBuilder`. -/
structure RadialGradientBuilder where
  stops : List Stop
  center : Option Center
  radius : Option Ratio
  focal_center : Option Center
  focal_radius : Option Ratio
  space : ColorSpace

/-- `Gradient::radial_builder`. -/
def Gradient.radialBuilder : RadialGradientBuilder :=
  ⟨[], none, none, none, none, ColorSpace.default⟩

/-- `RadialGradientBuilder::stops`. -/
def RadialGradientBuilder.setStops (b : RadialGradientBuilder) (stops : List Stop) :
    RadialGradientBuilder :=
  { b with stops := stops }

/-- `RadialGradientBuilder::stop` (push one). -/
def RadialGradientBuilder.pushStop (b : RadialGradientBuilder) (stop : Stop) :
    RadialGradientBuilder :=
  { b with stops := b.stops ++ [stop] }

/-- `RadialGradientBuilder::center`. -/
def RadialGradientBuilder.setCenter (b : RadialGradientBuilder) (center : Center) :
    RadialGradientBuilder :=
  { b with center := some center }

/-- `RadialGradientBuilder::radius`. -/
def RadialGradientBuilder.setRadius (b : RadialGradientBuilder) (radius : Ratio) :
    RadialGradientBuilder :=
  { b with radius := some radius }

/-- `RadialGradientBuilder::focal_center`. -/
def RadialGradientBuilder.setFocalCenter (b : RadialGradientBuilder) (fc : Center) :
    RadialGradientBuilder :=
  { b with focal_center := some fc }

/-- `RadialGradientBuilder::focal_radius`. -/
def RadialGradientBuilder.setFocalRadius (b : RadialGradientBuilder) (fr : Ratio) :
    RadialGradientBuilder :=
  { b with focal_radius := some fr }

/-- `RadialGradientBuilder::space`. -/
def RadialGradientBuilder.setSpace (b : RadialGradientBuilder) (space : ColorSpace) :
    RadialGradientBuilder :=
  { b with space := space }

/-- `RadialGradientBuilder::build`: stops, center, radius, focal_center,
focal_radius, in that order. -/
def RadialGradientBuilder.build (b : RadialGradientBuilder) :
    Except GradientBuilderError Gradient :=
  if b.stops.length ≥ 2 then
    match b.center with
    | none => .error (.MissingField "center")
    | some center =>
      match b.radius with
      | none => .error (.MissingField "radius")
      | some radius =>
        match b.focal_center with
        | none => .error (.MissingField "focal_center")
        | some fc =>
          match b.focal_radius with
          | none => .error (.MissingField "focal_radius")
          | some fr => .ok (Gradient.radial b.stops center radius fc fr b.space)
  else .error (.MissingField "stops")

/-- Rust `ConicGradientBuilder`. -/
structure ConicGradientBuilder where
  stops : List Stop
  angle : Option Angle
  center : Option Center
  space : ColorSpace

/-- `Gradient::conic_builder`. -/
def Gradient.conicBuilder : ConicGradientBuilder :=
  ⟨[], none, none, ColorSpace.default⟩

/-- `ConicGradientBuilder::stops`. -/
def ConicGradientBuilder.setStops (b : ConicGradientBuilder) (stops : List Stop) :
    ConicGradientBuilder :=
  { b with stops := stops }

/-- `ConicGradientBuilder::stop` (push one). -/
def ConicGradientBuilder.pushStop (b : ConicGradientBuilder) (stop : Stop) :
    ConicGradientBuilder :=
  { b with stops := b.stops ++ [stop] }

/-- `ConicGradientBuilder::angle`. -/
def ConicGradientBuilder.setAngle (b : ConicGradientBuilder) (angle : Angle) :
    ConicGradientBuilder :=
  { b with angle := some angle }

/-- `ConicGradientBuilder::center`. -/
def ConicGradientBuilder.setCenter (b : ConicGradientBuilder) (center : Center) :
    ConicGradientBuilder :=
  { b with center := some center }

/-- `ConicGradientBuilder::space`. -/
def ConicGradientBuilder.setSpace (b : ConicGradientBuilder) (space : ColorSpace) :
    ConicGradientBuilder :=
  { b with space := space }

/-- `ConicGradientBuilder::build`: stops, angle, center, in that order. -/
def ConicGradientBuilder.build (b : ConicGradientBuilder) :
    Except GradientBuilderError Gradient :=
  if b.stops.length ≥ 2 then
    match b.angle with
    | none => .error (.MissingField "angle")
    | some angle =>
      match b.center with
      | none => .error (.MissingField "center")
      | some center => .ok (Gradient.conic b.stops angle center b.space)
  else .error (.MissingField "stops")

/-! ## Untagged unions (src/color.rs, src/length.rs) -/

/-- Rust `ColorGradient`, `#[serde(untagged)]`, variants in declaration order
`Color`, `Gradient`. -/
inductive ColorGradient where
  | Color (c : Color)
  | Gradient (g : Gradient)

/-- Serialization of `ColorGradient` (untagged: the inner value). -/
def ColorGradient.encode : ColorGradient → CV
  | .Color c => Color.encode c
  | .Gradient g => Gradient.encode g

/-- Deserialization of `ColorGradient`: try `Color`, then `Gradient`; when
both fail, the serde untagged error names the enum. -/
def ColorGradient.decode (v : CV) : Except DecodeError ColorGradient :=
  match Color.decode v with
  | .ok c => .ok (.Color c)
  | .error _ =>
    match Gradient.decode v with
    | .ok g => .ok (.Gradient g)
    | .error _ => .error (.unknownVariant "ColorGradient")

/-- Rust `LengthRadius`, `#[serde(untagged)]`, variants in declaration order
`Length`, `Radius`. -/
inductive LengthRadius where
  | Length (l : Length)
  | Radius (r : Radius)
deriving DecidableEq

/-- Serialization of `LengthRadius` (untagged: the inner value). -/
def LengthRadius.encode : LengthRadius → CV
  | .Length l => Length.encode l
  | .Radius r => Radius.encode r

/-- Deserialization of `LengthRadius`: try `Length`, then `Radius`; when
both fail, the serde untagged error names the enum. -/
def LengthRadius.decode (v : CV) : Except DecodeError LengthRadius :=
  match Length.decode v with
  | .ok l => .ok (.Length l)
  | .error _ =>
    match Radius.decode v with
    | .ok r => .ok (.Radius r)
    | .error _ => .error (.unknownVariant "LengthRadius")

/-- `Angle::deg` is `self.radians * 180.0 / PI`; the numeric type and the
constant `PI` are abstracted over a field standing for `f64`, since `PI` is
not a rational number. -/
def degFormula {K : Type} [Field K] (pi radians : K) : K := radians * 180 / pi

/-! ## Round-trip helper lemmas -/

/-- Decoding inverts encoding for `Ratio`. -/
theorem ratio_rt (r : Ratio) : Ratio.decode (Ratio.encode r) = .ok r := rfl

/-- Decoding inverts encoding for `Angle`. -/
theorem angle_rt (a : Angle) : Angle.decode (Angle.encode a) = .ok a := rfl

/-- Decoding inverts encoding for `Length`. -/
theorem length_rt (l : Length) : Length.decode (Length.encode l) = .ok l := rfl

/-- Decoding inverts encoding for `Duration`. -/
theorem duration_rt (d : Duration) : Duration.decode (Duration.encode d) = .ok d := rfl

/-- Decoding inverts encoding for `Version`. -/
theorem version_rt (v : Version) : Version.decode (Version.encode v) = .ok v := rfl

/-- Decoding inverts encoding for `Type`. -/
theorem typetag_rt (t : TypeTag) : TypeTag.decode (TypeTag.encode t) = .ok t := rfl

/-- Decoding inverts encoding for `DateTime`. -/
theorem datetime_rt (d : DateTime) : DateTime.decode (DateTime.encode d) = .ok d := by
  cases d with
  | mk y mo dd h mi s =>
    cases y <;> cases mo <;> cases dd <;> cases h <;> cases mi <;> cases s <;> rfl

/-- Decoding inverts encoding for `Center`. -/
theorem center_rt (c : Center) : Center.decode (Center.encode c) = .ok c := rfl

/-- Decoding inverts encoding for `Radius` (the encoder writes the resolved
corners and null shorthands, which the wire-side resolution maps back). -/
theorem radius_rt (r : Radius) : Radius.decode (Radius.encode r) = .ok r := by
  cases r with
  | mk tl tr bl br => cases tl <;> cases tr <;> cases bl <;> cases br <;> rfl

/-- Decoding inverts encoding for `Color`. -/
theorem color_rt (c : Color) : Color.decode (Color.encode c) = .ok c := by
  cases c <;> rfl

/-- Decoding inverts encoding for `ColorSpace`. -/
theorem space_rt (sp : ColorSpace) : ColorSpace.decode (ColorSpace.encode sp) = .ok sp := by
  cases sp <;> rfl

/-- Decoding inverts encoding for `Stop`. -/
theorem stop_rt (s : Stop) : Stop.decode (Stop.encode s) = .ok s := by
  cases s with
  | mk c o => cases c <;> rfl

/-- Element-wise decoding inverts element-wise encoding of a stop list. -/
theorem stops_list_rt (l : List Stop) : decodeStopList (l.map Stop.encode) = .ok l := by
  induction l with
  | nil => rfl
  | cons s rest ih => simp only [List.map_cons, decodeStopList, stop_rt, ih]

/-- Decoding inverts encoding for `Gradient`. -/
theorem gradient_rt (g : Gradient) : Gradient.decode (Gradient.encode g) = .ok g := by
  cases g with
  | Linear s a sp =>
    have hs := stops_list_rt s
    cases sp <;>
      simp only [Gradient.encode, Gradient.decode, Gradient.decodeLinear, Gradient.tagKey,
        lookupKey, reqStops, reqAngle, reqSpace, encodeStops, hs, angle_rt, reduceIte,
        String.reduceEq] <;> rfl
  | Radial s c r fc fr sp =>
    have hs := stops_list_rt s
    cases sp <;>
      simp only [Gradient.encode, Gradient.decode, Gradient.decodeRadial, Gradient.tagKey,
        lookupKey, reqStops, reqCenter, reqRatio, reqSpace, encodeStops, hs, center_rt,
        ratio_rt, reduceIte, String.reduceEq] <;> rfl
  | Conic s a c sp =>
    have hs := stops_list_rt s
    cases sp <;>
      simp only [Gradient.encode, Gradient.decode, Gradient.decodeConic, Gradient.tagKey,
        lookupKey, reqStops, reqAngle, reqCenter, reqSpace, encodeStops, hs, angle_rt,
        center_rt, reduceIte, String.reduceEq] <;> rfl

/-- An encoded `Gradient` has no "typwire-type" entry, so the `Color` trial
of `ColorGradient` fails on it. -/
theorem color_decode_gradient_encode (g : Gradient) :
    Color.decode (Gradient.encode g) = .error (.missingField "typwire-type") := by
  cases g <;> rfl

/-- Decoding inverts encoding for `ColorGradient`. -/
theorem colorgradient_rt (cg : ColorGradient) :
    ColorGradient.decode (ColorGradient.encode cg) = .ok cg := by
  cases cg with
  | Color c => cases c <;> rfl
  | Gradient g =>
    simp only [ColorGradient.encode, ColorGradient.decode, color_decode_gradient_encode,
      gradient_rt]

/-- An encoded `Radius` has no "typwire-type" entry, so the `Length` trial of
`LengthRadius` fails on it. -/
theorem length_decode_radius_encode (r : Radius) :
    Length.decode (Radius.encode r) = .error (.missingField "typwire-type") := rfl

/-- Decoding inverts encoding for `LengthRadius`. -/
theorem lengthradius_rt (lr : LengthRadius) :
    LengthRadius.decode (LengthRadius.encode lr) = .ok lr := by
  cases lr with
  | Length l => rfl
  | Radius r =>
    simp only [LengthRadius.encode, LengthRadius.decode, length_decode_radius_encode,
      radius_rt]

/-- A map binding none of the nine recognized radius keys decodes to the
all-unset `Radius`. -/
theorem radius_decode_unrecognized (kvs : List (String × CV))
    (H : ∀ k ∈ radiusRecognizedKeys, lookupKey kvs k = none) :
    Radius.decode (.map kvs) = .ok (Radius.new none none none none) := by
  have h1 := H "top-left" (by decide)
  have h2 := H "top-right" (by decide)
  have h3 := H "bottom-left" (by decide)
  have h4 := H "bottom-right" (by decide)
  have h5 := H "left" (by decide)
  have h6 := H "top" (by decide)
  have h7 := H "right" (by decide)
  have h8 := H "bottom" (by decide)
  have h9 := H "rest" (by decide)
  simp only [Radius.decode, RadiusCbor.ofCV, optLength, h1, h2, h3, h4, h5, h6, h7, h8, h9]
  rfl

/-! ## Claims -/

/-- C3: the radius corner resolution takes, for each corner, the first
present value in the fixed priority order (top_left from top_left, left,
top, rest; top_right from top_right, top, right, rest; bottom_left from
bottom_left, left, bottom, rest; bottom_right from bottom_right, right,
bottom, rest); the builder and the wire decoder resolve identically on
matching field values; a builder with only rest = Length(4.0) yields all
four corners 4.0, and a builder with left = Length(2.0) and top =
Length(1.0) yields top_left = 2.0. -/
theorem c3_radius_corner_resolution :
    (∀ b : RadiusBuilder,
      b.build = Radius.new
        (b.top_left.or (b.left.or (b.top.or b.rest)))
        (b.top_right.or (b.top.or (b.right.or b.rest)))
        (b.bottom_left.or (b.left.or (b.bottom.or b.rest)))
        (b.bottom_right.or (b.right.or (b.bottom.or b.rest)))) ∧
    (∀ tl tr bl br t bo l r re : Option Length,
      (RadiusBuilder.mk tl tr bl br t bo l r re).build
        = Radius.fromCbor (RadiusCbor.mk tl tr bl br l t r bo re)) ∧
    (Radius.builder.setRest (Length.new 4)).build
      = Radius.new (some (Length.new 4)) (some (Length.new 4))
          (some (Length.new 4)) (some (Length.new 4)) ∧
    ((Radius.builder.setLeft (Length.new 2)).setTop (Length.new 1)).build.top_left
      = some (Length.new 2) :=
  ⟨fun _ => rfl, fun _ _ _ _ _ _ _ _ _ => rfl, rfl, rfl⟩

/-- C8: `DurationBuilder::build` yields seconds + 60·minutes + 3600·hours +
86400·days + 604800·weeks over the components set (unset components are the
initial 0); in particular hours(1).minutes(30).seconds(45) builds 5445
seconds. -/
theorem c8_duration_builder_composition :
    (∀ s m h d w : ℚ,
      (DurationBuilder.mk s m h d w).build
        = Duration.new (s + 60 * m + 3600 * h + 86400 * d + 604800 * w)) ∧
    ((((Duration.builder.hrs 1).mins 30).secs 45).build).secs = 5445 := by
  constructor
  · intro s m h d w
    simp only [DurationBuilder.build, Duration.new, secondsInMinute, minutesInHour,
      hoursInDay, daysInWeek, Duration.mk.injEq]
    ring
  · norm_num [Duration.builder, DurationBuilder.hrs, DurationBuilder.mins,
      DurationBuilder.secs, DurationBuilder.build, Duration.secs, Duration.new,
      secondsInMinute, minutesInHour, hoursInDay, daysInWeek]

/-- C9: the derived unit conversions are total functions with fixed
constants and exact at the designed test values: Length(72).inches() = 1,
Duration(3600).hours() = 1, and the degree conversion at radians = PI is
exactly 180 for every nonzero PI in a field (instantiated at ℝ and π by the
witness). -/
theorem c9_exact_derived_conversions :
    (Length.new 72).inches = 1 ∧
    (Duration.new 3600).hours = 1 ∧
    ∀ (K : Type) [Field K] (pi : K), pi ≠ 0 → degFormula pi pi = 180 := by
  refine ⟨by norm_num [Length.inches, Length.new],
    by norm_num [Duration.hours, Duration.minutes, Duration.secs, Duration.new,
      secondsInMinute, minutesInHour], ?_⟩
  intro K _ pi h
  rw [degFormula, mul_comm, mul_div_assoc, div_self h, mul_one]

/-- Witness for C9: the degree conversion at the real constant π. -/
theorem c9_witness : degFormula Real.pi Real.pi = 180 :=
  c9_exact_derived_conversions.2.2 ℝ Real.pi Real.pi_ne_zero

/-- C7 as stated is false: `Gradient::linear` is public and accepts an
empty stops vector (the doc example of gradient.rs itself constructs one),
so not every publicly obtainable Gradient has at least 2 stops. -/
theorem c7_counterexample :
    (Gradient.linear [] (Angle.new 45) ColorSpace.Oklab).stops.length = 0 := rfl

/-- C7 amended: every Gradient produced by a successful builder `build()`
carries at least two stops; the direct constructors do not enforce the
bound. -/
theorem c7_builder_stops_lower_bound :
    (∀ (b : LinearGradientBuilder) (g : Gradient), b.build = .ok g → 2 ≤ g.stops.length) ∧
    (∀ (b : RadialGradientBuilder) (g : Gradient), b.build = .ok g → 2 ≤ g.stops.length) ∧
    (∀ (b : ConicGradientBuilder) (g : Gradient), b.build = .ok g → 2 ≤ g.stops.length) := by
  refine ⟨fun b g h => ?_, fun b g h => ?_, fun b g h => ?_⟩
  · unfold LinearGradientBuilder.build at h
    split at h
    · next hc =>
      split at h
      · cases h
      · cases h; exact hc
    · cases h
  · unfold RadialGradientBuilder.build at h
    split at h
    · next hc =>
      split at h
      · cases h
      · split at h
        · cases h
        · split at h
          · cases h
          · split at h
            · cases h
            · cases h; exact hc
    · cases h
  · unfold ConicGradientBuilder.build at h
    split at h
    · next hc =>
      split at h
      · cases h
      · split at h
        · cases h
        · cases h; exact hc
    · cases h

/-- Witness for C7: a successful linear build with exactly two stops. -/
theorem c7_witness :
    2 ≤ (Gradient.Linear [Stop.new BLACK (Ratio.new 0), Stop.new WHITE (Ratio.new 1)]
        (Angle.new 45) ColorSpace.Oklab).stops.length :=
  c7_builder_stops_lower_bound.1
    ((Gradient.linearBuilder.setStops
      [Stop.new BLACK (Ratio.new 0), Stop.new WHITE (Ratio.new 1)]).setAngle (Angle.new 45))
    _ rfl

/-- C5: the untagged unions try the first alternative (Length resp. Color),
fall back to the second (Radius resp. Gradient) only on its failure, fail
only when both fail, and a buffer decodable as both alternatives resolves
to the first. -/
theorem c5_untagged_union_order :
    (∀ (v : CV) (l : Length), Length.decode v = .ok l →
      LengthRadius.decode v = .ok (.Length l)) ∧
    (∀ (v : CV) (e : DecodeError) (r : Radius), Length.decode v = .error e →
      Radius.decode v = .ok r → LengthRadius.decode v = .ok (.Radius r)) ∧
    (∀ (v : CV) (e f : DecodeError), Length.decode v = .error e →
      Radius.decode v = .error f →
      LengthRadius.decode v = .error (.unknownVariant "LengthRadius")) ∧
    (∀ (v : CV) (c : Color), Color.decode v = .ok c →
      ColorGradient.decode v = .ok (.Color c)) ∧
    (∀ (v : CV) (e : DecodeError) (g : Gradient), Color.decode v = .error e →
      Gradient.decode v = .ok g → ColorGradient.decode v = .ok (.Gradient g)) ∧
    (∀ (v : CV) (e f : DecodeError), Color.decode v = .error e →
      Gradient.decode v = .error f →
      ColorGradient.decode v = .error (.unknownVariant "ColorGradient")) ∧
    (∀ (v : CV) (l : Length) (r : Radius), Length.decode v = .ok l →
      Radius.decode v = .ok r → LengthRadius.decode v = .ok (.Length l)) := by
  refine ⟨fun v l h => ?_, fun v e r h1 h2 => ?_, fun v e f h1 h2 => ?_,
    fun v c h => ?_, fun v e g h1 h2 => ?_, fun v e f h1 h2 => ?_,
    fun v l r h1 h2 => ?_⟩
  all_goals simp only [LengthRadius.decode, ColorGradient.decode, *]

/-- Witness for C5: a length record is also accepted by the Radius shape
(all its keys are unrecognized there), and the union resolves it to the
first alternative, Length. -/
theorem c5_witness :
    LengthRadius.decode (CV.map [("typwire-type", CV.str "length"), ("points", CV.num 72)])
      = .ok (.Length (Length.new 72)) :=
  c5_untagged_union_order.2.2.2.2.2.2
    (CV.map [("typwire-type", CV.str "length"), ("points", CV.num 72)])
    (Length.new 72) (Radius.new none none none none) rfl rfl

/-- C10 as stated is false: a well-formed map binding the recognized key
"top-left" to a bare number fails to decode as a Radius (the nested Length
decode rejects it), and the LengthRadius trial then fails on both
alternatives. -/
theorem c10_counterexample :
    Radius.decode (CV.map [("top-left", CV.num 5)]) = .error .notAMap ∧
    LengthRadius.decode (CV.map [("top-left", CV.num 5)])
      = .error (.unknownVariant "LengthRadius") :=
  ⟨rfl, rfl⟩

/-- C10 amended: every radius key is optional and unrecognized keys are
ignored, so a well-formed map binding none of the nine recognized keys
decodes to the Radius with all corners unset, and the LengthRadius trial
accepts every such map; but a recognized key bound to an invalid Length
value makes Radius decoding fail, so the error branch is reachable. -/
theorem c10_radius_optional_keys :
    (∀ kvs, (∀ k ∈ radiusRecognizedKeys, lookupKey kvs k = none) →
      Radius.decode (.map kvs) = .ok (Radius.new none none none none)) ∧
    (∀ kvs, (∀ k ∈ radiusRecognizedKeys, lookupKey kvs k = none) →
      ∃ x, LengthRadius.decode (.map kvs) = .ok x) := by
  constructor
  · exact radius_decode_unrecognized
  · intro kvs H
    cases hL : Length.decode (.map kvs) with
    | ok l => exact ⟨.Length l, by simp only [LengthRadius.decode, hL]⟩
    | error e =>
      exact ⟨.Radius (Radius.new none none none none),
        by simp only [LengthRadius.decode, hL, radius_decode_unrecognized kvs H]⟩

/-- Witness for C10: a map with a single unrecognized key decodes to the
all-unset Radius. -/
theorem c10_witness :
    Radius.decode (.map [("foo", CV.null)]) = .ok (Radius.new none none none none) :=
  c10_radius_optional_keys.1 [("foo", CV.null)] (by intro k hk; fin_cases hk <;> rfl)

/-- C4: each gradient builder evaluates its checks in a fixed order with
the first failure winning — stops count below 2 fails with
MissingField("stops"); otherwise the first unset geometry field in
declaration order fails (Linear: angle; Radial: center, radius,
focal_center, focal_radius; Conic: angle, center); otherwise build succeeds
with the given stops and geometry; the color space defaults to Oklab at
builder creation. -/
theorem c4_gradient_builder_checks :
    (∀ b : LinearGradientBuilder,
      (b.stops.length < 2 → b.build = .error (.MissingField "stops")) ∧
      (2 ≤ b.stops.length → b.angle = none → b.build = .error (.MissingField "angle")) ∧
      (∀ a, 2 ≤ b.stops.length → b.angle = some a →
        b.build = .ok (Gradient.Linear b.stops a b.space))) ∧
    (∀ b : RadialGradientBuilder,
      (b.stops.length < 2 → b.build = .error (.MissingField "stops")) ∧
      (2 ≤ b.stops.length → b.center = none → b.build = .error (.MissingField "center")) ∧
      (∀ c, 2 ≤ b.stops.length → b.center = some c → b.radius = none →
        b.build = .error (.MissingField "radius")) ∧
      (∀ c rad, 2 ≤ b.stops.length → b.center = some c → b.radius = some rad →
        b.focal_center = none → b.build = .error (.MissingField "focal_center")) ∧
      (∀ c rad fc, 2 ≤ b.stops.length → b.center = some c → b.radius = some rad →
        b.focal_center = some fc → b.focal_radius = none →
        b.build = .error (.MissingField "focal_radius")) ∧
      (∀ c rad fc fr, 2 ≤ b.stops.length → b.center = some c → b.radius = some rad →
        b.focal_center = some fc → b.focal_radius = some fr →
        b.build = .ok (Gradient.Radial b.stops c rad fc fr b.space))) ∧
    (∀ b : ConicGradientBuilder,
      (b.stops.length < 2 → b.build = .error (.MissingField "stops")) ∧
      (2 ≤ b.stops.length → b.angle = none → b.build = .error (.MissingField "angle")) ∧
      (∀ a, 2 ≤ b.stops.length → b.angle = some a → b.center = none →
        b.build = .error (.MissingField "center")) ∧
      (∀ a c, 2 ≤ b.stops.length → b.angle = some a → b.center = some c →
        b.build = .ok (Gradient.Conic b.stops a c b.space))) ∧
    Gradient.linearBuilder.space = ColorSpace.Oklab ∧
    Gradient.radialBuilder.space = ColorSpace.Oklab ∧
    Gradient.conicBuilder.space = ColorSpace.Oklab := by
  refine ⟨fun b => ⟨fun h => ?_, fun hs ha => ?_, fun a hs ha => ?_⟩,
    fun b => ⟨fun h => ?_, fun hs hc => ?_, fun c hs hc hr => ?_,
      fun c rad hs hc hr hf => ?_, fun c rad fc hs hc hr hf hfr => ?_,
      fun c rad fc fr hs hc hr hf hfr => ?_⟩,
    fun b => ⟨fun h => ?_, fun hs ha => ?_, fun a hs ha hc => ?_,
      fun a c hs ha hc => ?_⟩, rfl, rfl, rfl⟩
  · unfold LinearGradientBuilder.build
    rw [if_neg (by omega)]
  · unfold LinearGradientBuilder.build
    rw [if_pos hs, ha]
  · unfold LinearGradientBuilder.build
    rw [if_pos hs, ha]
    rfl
  · unfold RadialGradientBuilder.build
    rw [if_neg (by omega)]
  · unfold RadialGradientBuilder.build
    rw [if_pos hs, hc]
  · unfold RadialGradientBuilder.build
    rw [if_pos hs, hc, hr]
  · unfold RadialGradientBuilder.build
    rw [if_pos hs, hc, hr, hf]
  · unfold RadialGradientBuilder.build
    rw [if_pos hs, hc, hr, hf, hfr]
  · unfold RadialGradientBuilder.build
    rw [if_pos hs, hc, hr, hf, hfr]
    rfl
  · unfold ConicGradientBuilder.build
    rw [if_neg (by omega)]
  · unfold ConicGradientBuilder.build
    rw [if_pos hs, ha]
  · unfold ConicGradientBuilder.build
    rw [if_pos hs, ha, hc]
  · unfold ConicGradientBuilder.build
    rw [if_pos hs, ha, hc]
    rfl

/-- Witness for C4: a linear builder with two stops and no angle fails with
MissingField("angle"). -/
theorem c4_witness :
    (Gradient.linearBuilder.setStops
      [Stop.new BLACK (Ratio.new 0), Stop.new WHITE (Ratio.new 1)]).build
      = .error (.MissingField "angle") :=
  (c4_gradient_builder_checks.1
    (Gradient.linearBuilder.setStops
      [Stop.new BLACK (Ratio.new 0), Stop.new WHITE (Ratio.new 1)])).2.1
    (by decide) rfl

/-- C2 as stated is false in its Radius clause: re-encoding a decoded
Radius does emit the shorthand keys — serde writes every `None` field as an
entry with a null value, so the key "rest" is present (bound to null) in
the encoding of the Radius decoded from a rest-shorthand buffer. -/
theorem c2_counterexample :
    Radius.decode (CV.map [("rest", Length.encode (Length.new 4))])
      = .ok (Radius.new (some (Length.new 4)) (some (Length.new 4))
          (some (Length.new 4)) (some (Length.new 4))) ∧
    lookupKey (Radius.encodeEntries (Radius.new (some (Length.new 4)) (some (Length.new 4))
        (some (Length.new 4)) (some (Length.new 4)))) "rest" = some CV.null :=
  ⟨rfl, rfl⟩

/-- C2 amended: decode inverts encode for every scalar and composite value
type; for Radius the round trip is stable from the first decode onward, and
the encoding of any Radius binds the four corner keys to the corner values
while every shorthand key is emitted only with a null value (never a
Length). -/
theorem c2_roundtrip :
    (∀ a : Angle, Angle.decode (Angle.encode a) = .ok a) ∧
    (∀ r : Ratio, Ratio.decode (Ratio.encode r) = .ok r) ∧
    (∀ l : Length, Length.decode (Length.encode l) = .ok l) ∧
    (∀ d : Duration, Duration.decode (Duration.encode d) = .ok d) ∧
    (∀ d : DateTime, DateTime.decode (DateTime.encode d) = .ok d) ∧
    (∀ v : Version, Version.decode (Version.encode v) = .ok v) ∧
    (∀ t : TypeTag, TypeTag.decode (TypeTag.encode t) = .ok t) ∧
    (∀ c : Center, Center.decode (Center.encode c) = .ok c) ∧
    (∀ s : Stop, Stop.decode (Stop.encode s) = .ok s) ∧
    (∀ c : Color, Color.decode (Color.encode c) = .ok c) ∧
    (∀ g : Gradient, Gradient.decode (Gradient.encode g) = .ok g) ∧
    (∀ cg : ColorGradient, ColorGradient.decode (ColorGradient.encode cg) = .ok cg) ∧
    (∀ lr : LengthRadius, LengthRadius.decode (LengthRadius.encode lr) = .ok lr) ∧
    (∀ (b : CV) (r : Radius), Radius.decode b = .ok r →
      Radius.decode (Radius.encode r) = .ok r) ∧
    (∀ (r : Radius) (k : String), k ∈ ["left", "top", "right", "bottom", "rest"] →
      lookupKey r.encodeEntries k = some CV.null) ∧
    (∀ r : Radius,
      lookupKey r.encodeEntries "top-left" = some (optLengthCV r.top_left) ∧
      lookupKey r.encodeEntries "top-right" = some (optLengthCV r.top_right) ∧
      lookupKey r.encodeEntries "bottom-left" = some (optLengthCV r.bottom_left) ∧
      lookupKey r.encodeEntries "bottom-right" = some (optLengthCV r.bottom_right)) := by
  refine ⟨angle_rt, ratio_rt, length_rt, duration_rt, datetime_rt, version_rt, typetag_rt,
    center_rt, stop_rt, color_rt, gradient_rt, colorgradient_rt, lengthradius_rt,
    fun _ r _ => radius_rt r, fun r k hk => ?_, fun r => ⟨rfl, rfl, rfl, rfl⟩⟩
  fin_cases hk <;> rfl

/-- Witness for C2: the rest-shorthand buffer decodes, its re-encoding
decodes back to the same value, and the re-encoding carries "left" only as
null. -/
theorem c2_witness :
    Radius.decode (Radius.encode (Radius.new (some (Length.new 4)) (some (Length.new 4))
        (some (Length.new 4)) (some (Length.new 4))))
      = .ok (Radius.new (some (Length.new 4)) (some (Length.new 4))
          (some (Length.new 4)) (some (Length.new 4))) ∧
    lookupKey (Radius.encodeEntries (Radius.new (some (Length.new 4)) (some (Length.new 4))
        (some (Length.new 4)) (some (Length.new 4)))) "left" = some CV.null :=
  ⟨c2_roundtrip.2.2.2.2.2.2.2.2.2.2.2.2.2.1
      (CV.map [("rest", Length.encode (Length.new 4))]) _ rfl,
    c2_roundtrip.2.2.2.2.2.2.2.2.2.2.2.2.2.2.1 _ "left" (by decide)⟩

/-- C1 as stated is false on two points: a well-formed map whose
discriminant field is absent fails during the proxy deserialization with a
missing-field error, not with a TypeMismatch carrying an actual
discriminant; and the TypeMismatch message for a Length buffer tagged
"duration" is "Invalid typwire-type for Length: duration", which does not
contain the registered name "length" (it names the capitalized Rust type
instead). -/
theorem c1_counterexample :
    Angle.decode (CV.map [("radians", CV.num 1)]) = .error (.missingField "typed-type") ∧
    Length.decode (CV.map [("typwire-type", CV.str "duration"), ("points", CV.num 1)])
      = .error (.typeMismatch "Invalid typwire-type for Length: duration") ∧
    ¬ "length".data <:+: "Invalid typwire-type for Length: duration".data :=
  ⟨rfl, rfl, by decide⟩

/-- C1 amended: for every tagged-record scalar, a well-formed map whose
discriminant string is present but different from the registered name fails
with a TypeMismatch error whose message carries the actual discriminant
string (prefixed by the discriminant key and the capitalized Rust type
name, not the lowercase registered name); a map whose discriminant field is
absent instead fails with a missing-field deserialization error; in
particular a Length-shaped buffer tagged "duration" fails with the message
"Invalid typwire-type for Length: duration", which carries "duration". -/
theorem c1_discriminant_rejection :
    (∀ q : ℚ, Angle.decode (.map [("radians", .num q)])
      = .error (.missingField AngleCbor.discKey)) ∧
    (∀ (q : ℚ) (s : String), s ≠ angleTypeName →
      Angle.decode (.map [(AngleCbor.discKey, .str s), ("radians", .num q)])
        = .error (.typeMismatch ("Invalid typed-type for Angle: " ++ s))) ∧
    (∀ q : ℚ, Ratio.decode (.map [("ratio", .num q)])
      = .error (.missingField RatioCbor.discKey)) ∧
    (∀ (q : ℚ) (s : String), s ≠ ratioTypeName →
      Ratio.decode (.map [(RatioCbor.discKey, .str s), ("ratio", .num q)])
        = .error (.typeMismatch ("Invalid typwire-type for Ratio: " ++ s))) ∧
    (∀ q : ℚ, Length.decode (.map [("points", .num q)])
      = .error (.missingField LengthCbor.discKey)) ∧
    (∀ (q : ℚ) (s : String), s ≠ lengthTypeName →
      Length.decode (.map [(LengthCbor.discKey, .str s), ("points", .num q)])
        = .error (.typeMismatch ("Invalid typwire-type for Length: " ++ s))) ∧
    (∀ q : ℚ, Duration.decode (.map [("seconds", .num q)])
      = .error (.missingField DurationCbor.discKey)) ∧
    (∀ (q : ℚ) (s : String), s ≠ durationTypeName →
      Duration.decode (.map [(DurationCbor.discKey, .str s), ("seconds", .num q)])
        = .error (.typeMismatch ("Invalid typed-type for Duration: " ++ s))) ∧
    (DateTime.decode (.map []) = .error (.missingField DateTimeCbor.discKey)) ∧
    (∀ s : String, s ≠ datetimeTypeName →
      DateTime.decode (.map [(DateTimeCbor.discKey, .str s)])
        = .error (.typeMismatch ("Invalid typed-type for DateTime: " ++ s))) ∧
    (∀ ma mi p r b : ℤ, Version.decode (.map [("major", .int ma), ("minor", .int mi),
        ("patch", .int p), ("revision", .int r), ("build", .int b)])
      = .error (.missingField VersionCbor.discKey)) ∧
    (∀ (ma mi p r b : ℤ) (s : String), s ≠ versionTypeName →
      Version.decode (.map [(VersionCbor.discKey, .str s), ("major", .int ma),
          ("minor", .int mi), ("patch", .int p), ("revision", .int r), ("build", .int b)])
        = .error (.typeMismatch ("Invalid typed-type for Version: " ++ s))) ∧
    (∀ t : String, TypeTag.decode (.map [("ty", .str t)])
      = .error (.missingField TypeCbor.discKey)) ∧
    (∀ t s : String, s ≠ typeTypeName →
      TypeTag.decode (.map [(TypeCbor.discKey, .str s), ("ty", .str t)])
        = .error (.typeMismatch ("Invalid typed-type for Type: " ++ s))) ∧
    (Length.decode (.map [(LengthCbor.discKey, .str "duration"), ("points", .num 1)])
      = .error (.typeMismatch "Invalid typwire-type for Length: duration")) ∧
    "duration".data <:+: "Invalid typwire-type for Length: duration".data := by
  refine ⟨fun q => rfl, fun q s h => ?_, fun q => rfl, fun q s h => ?_,
    fun q => rfl, fun q s h => ?_, fun q => rfl, fun q s h => ?_,
    rfl, fun s h => ?_, fun ma mi p r b => rfl, fun ma mi p r b s h => ?_,
    fun t => rfl, fun t s h => ?_, rfl, by decide⟩
  · show Angle.tryFromCbor ⟨s, q⟩ = _
    unfold Angle.tryFromCbor
    rw [if_pos h]
  · show Ratio.tryFromCbor ⟨s, q⟩ = _
    unfold Ratio.tryFromCbor
    rw [if_pos h]
  · show Length.tryFromCbor ⟨s, q⟩ = _
    unfold Length.tryFromCbor
    rw [if_pos h]
  · show Duration.tryFromCbor ⟨s, q⟩ = _
    unfold Duration.tryFromCbor
    rw [if_pos h]
  · show DateTime.tryFromCbor ⟨s, none, none, none, none, none, none⟩ = _
    unfold DateTime.tryFromCbor
    rw [if_pos h]
  · show Version.tryFromCbor ⟨s, ma, mi, p, r, b⟩ = _
    unfold Version.tryFromCbor
    rw [if_pos h]
  · show TypeTag.tryFromCbor ⟨s, t⟩ = _
    unfold TypeTag.tryFromCbor
    rw [if_pos h]

/-- Witness for C1: the Length codec rejects the discriminant "duration"
with the message that carries it. -/
theorem c1_witness :
    Length.decode (.map [(LengthCbor.discKey, .str "duration"), ("points", .num 1)])
      = .error (.typeMismatch ("Invalid typwire-type for Length: " ++ "duration")) :=
  c1_discriminant_rejection.2.2.2.2.2.1 1 "duration" (by decide)

/-- C6 as stated is false: the variant-discriminant keys of the sum-typed
composites are not distinct from the scalar discriminant keys — Color is
tagged under "typwire-type", the very key Length uses, and Gradient under
"typed-type", the very key Angle uses. -/
theorem c6_counterexample :
    Color.tagKey = LengthCbor.discKey ∧ Gradient.tagKey = AngleCbor.discKey :=
  ⟨rfl, rfl⟩

/-- C6 amended: Color and Gradient each carry a variant-discriminant key —
"typwire-type" for Color and "typed-type" for Gradient — which coincides
with the scalar discriminant key of one of the two schema revisions (Color
with Ratio and Length, Gradient with Angle, Duration, DateTime, Version and
Type); the recognized values of the key are exactly the kebab-cased variant
names, every encoded value carries one of them, and any other tag value is
rejected with an unknown-variant error. -/
theorem c6_variant_discriminants :
    Color.tagKey = "typwire-type" ∧
    Gradient.tagKey = "typed-type" ∧
    Color.tagKey = RatioCbor.discKey ∧ Color.tagKey = LengthCbor.discKey ∧
    Gradient.tagKey = AngleCbor.discKey ∧ Gradient.tagKey = DurationCbor.discKey ∧
    Gradient.tagKey = DateTimeCbor.discKey ∧ Gradient.tagKey = VersionCbor.discKey ∧
    Gradient.tagKey = TypeCbor.discKey ∧
    Color.recognizedTags = ["color-luma", "color-oklab", "color-oklch", "color-linear-rgb",
      "color-rgb", "color-cmyk", "color-hsl", "color-hsv"] ∧
    Gradient.recognizedTags = ["linear", "radial", "conic"] ∧
    (∀ c : Color, ∃ kvs, Color.encode c = .map kvs ∧
      lookupKey kvs Color.tagKey = some (.str c.variantTag) ∧
      c.variantTag ∈ Color.recognizedTags) ∧
    (∀ g : Gradient, ∃ kvs, Gradient.encode g = .map kvs ∧
      lookupKey kvs Gradient.tagKey = some (.str g.variantTag) ∧
      g.variantTag ∈ Gradient.recognizedTags) ∧
    (∀ kvs t, lookupKey kvs Color.tagKey = some (.str t) → t ∉ Color.recognizedTags →
      Color.decode (.map kvs) = .error (.unknownVariant t)) ∧
    (∀ kvs t, lookupKey kvs Gradient.tagKey = some (.str t) → t ∉ Gradient.recognizedTags →
      Gradient.decode (.map kvs) = .error (.unknownVariant t)) := by
  refine ⟨rfl, rfl, rfl, rfl, rfl, rfl, rfl, rfl, rfl, rfl, rfl,
    fun c => ?_, fun g => ?_, fun kvs t h hn => ?_, fun kvs t h hn => ?_⟩
  · cases c <;> refine ⟨_, rfl, rfl, ?_⟩ <;>
      simp [Color.variantTag, Color.recognizedTags]
  · cases g <;> refine ⟨_, rfl, rfl, ?_⟩ <;>
      simp [Gradient.variantTag, Gradient.recognizedTags]
  · simp only [Color.recognizedTags, List.mem_cons, List.not_mem_nil, or_false,
      not_or] at hn
    obtain ⟨n1, n2, n3, n4, n5, n6, n7, n8⟩ := hn
    simp only [Color.decode, h]
    rw [if_neg n1, if_neg n2, if_neg n3, if_neg n4, if_neg n5, if_neg n6, if_neg n7,
      if_neg n8]
  · simp only [Gradient.recognizedTags, List.mem_cons, List.not_mem_nil, or_false,
      not_or] at hn
    obtain ⟨n1, n2, n3⟩ := hn
    simp only [Gradient.decode, h]
    rw [if_neg n1, if_neg n2, if_neg n3]

/-- Witness for C6: the tag "color-bogus" under the Color key and the tag
"bogus" under the Gradient key are both rejected as unknown variants. -/
theorem c6_witness :
    Color.decode (.map [("typwire-type", .str "color-bogus")])
      = .error (.unknownVariant "color-bogus") ∧
    Gradient.decode (.map [("typed-type", .str "bogus")])
      = .error (.unknownVariant "bogus") :=
  ⟨c6_variant_discriminants.2.2.2.2.2.2.2.2.2.2.2.2.2.1
      [("typwire-type", .str "color-bogus")] "color-bogus" rfl (by decide),
    c6_variant_discriminants.2.2.2.2.2.2.2.2.2.2.2.2.2.2
      [("typed-type", .str "bogus")] "bogus" rfl (by decide)⟩

end Typed
